import Mathlib

/-!
Shallow embedding of `docker/configure_workers_and_start.py`: the worker
topology synthesizer that turns a requested worker-type list (the
`SYNAPSE_WORKERS` environment variable) into the shared homeserver config
patch, the nginx routing config, the supervisord config and the per-worker
descriptor files.

Python dicts preserve insertion order, so the module-level `WORKERS_CONFIG`
dict is embedded as an association list in source order; `dict.get` becomes
an association-list lookup.  The `log` calls go to stdout only and feed no
artifact, so they are collected by a separate function `logsOf` over the
same request list.  File writes are modelled explicitly: the three files the
script opens with mode `"a"` are appended to, and the worker config files
written by `convert` (mode `"w"`) overwrite.
-/

namespace Synapse

/-- One entry of the `WORKERS_CONFIG` table (a value of the Python dict). -/
structure WorkerConfig where
  app : String
  listener_resources : List String
  endpoint_patterns : List String
  shared_extra_conf : String
deriving Repr, DecidableEq

def DEFAULT_LISTENER_RESOURCES : List String := ["client", "federation"]

/-- The module-level `WORKERS_CONFIG` dict, in source (insertion) order. -/
def WORKERS_CONFIG : List (String × WorkerConfig) :=
  [ ("pusher",
      { app := "synapse.app.pusher",
        listener_resources := [],
        endpoint_patterns := [],
        shared_extra_conf := "start_pushers: false" }),
    ("user_dir",
      { app := "synapse.app.user_dir",
        listener_resources := DEFAULT_LISTENER_RESOURCES,
        endpoint_patterns :=
          ["^/_matrix/client/(api/v1|r0|unstable)/user_directory/search$"],
        shared_extra_conf := "update_user_directory: false" }),
    ("media_repository",
      { app := "synapse.app.media_repository",
        listener_resources := ["media"],
        endpoint_patterns :=
          [ "^/_synapse/admin/v1/purge_media_cache$",
            "^/_synapse/admin/v1/room/.*/media.*$",
            "^/_synapse/admin/v1/user/.*/media.*$",
            "^/_synapse/admin/v1/media/.*$",
            "^/_synapse/admin/v1/quarantine_media/.*$" ],
        shared_extra_conf := "enable_media_repo: false" }),
    ("appservice",
      { app := "synapse.app.appservice",
        listener_resources := [],
        endpoint_patterns := [],
        shared_extra_conf := "notify_appservices: false" }),
    ("federation_sender",
      { app := "synapse.app.federation_sender",
        listener_resources := [],
        endpoint_patterns := [],
        shared_extra_conf := "send_federation: false" }),
    ("synchrotron",
      { app := "synapse.app.generic_worker",
        listener_resources := DEFAULT_LISTENER_RESOURCES,
        endpoint_patterns :=
          [ "^/_matrix/client/(v2_alpha|r0)/sync$",
            "^/_matrix/client/(api/v1|v2_alpha|r0)/events$",
            "^/_matrix/client/(api/v1|r0)/initialSync$",
            "^/_matrix/client/(api/v1|r0)/rooms/[^/]+/initialSync$" ],
        shared_extra_conf := "" }),
    ("federation_reader",
      { app := "synapse.app.generic_worker",
        listener_resources := DEFAULT_LISTENER_RESOURCES,
        endpoint_patterns :=
          [ "^/_matrix/federation/(v1|v2)/event/",
            "^/_matrix/federation/(v1|v2)/state/",
            "^/_matrix/federation/(v1|v2)/state_ids/",
            "^/_matrix/federation/(v1|v2)/backfill/",
            "^/_matrix/federation/(v1|v2)/get_missing_events/",
            "^/_matrix/federation/(v1|v2)/publicRooms",
            "^/_matrix/federation/(v1|v2)/query/",
            "^/_matrix/federation/(v1|v2)/make_join/",
            "^/_matrix/federation/(v1|v2)/make_leave/",
            "^/_matrix/federation/(v1|v2)/send_join/",
            "^/_matrix/federation/(v1|v2)/send_leave/",
            "^/_matrix/federation/(v1|v2)/invite/",
            "^/_matrix/federation/(v1|v2)/query_auth/",
            "^/_matrix/federation/(v1|v2)/event_auth/",
            "^/_matrix/federation/(v1|v2)/exchange_third_party_invite/",
            "^/_matrix/federation/(v1|v2)/user/devices/",
            "^/_matrix/federation/(v1|v2)/get_groups_publicised$",
            "^/_matrix/key/v2/query" ],
        shared_extra_conf := "" }),
    ("federation_inbound",
      { app := "synapse.app.generic_worker",
        listener_resources := DEFAULT_LISTENER_RESOURCES,
        endpoint_patterns := ["/_matrix/federation/(v1|v2)/send/"],
        shared_extra_conf := "" }) ]

/-- The registry key sequence, i.e. `WORKERS_CONFIG.keys()` in dict
insertion order. -/
def registryNames : List String := WORKERS_CONFIG.map Prod.fst

/-- `dict.get`: first binding of the key, `none` when absent.  (All values of
`WORKERS_CONFIG` are non-empty dicts, hence truthy, so the
`if worker_config:` test is exactly success of this lookup.) -/
def lookupAssoc : List (String × WorkerConfig) → String → Option WorkerConfig
  | [], _ => none
  | (k, v) :: rest, n => if n = k then some v else lookupAssoc rest n

def lookupWorker (n : String) : Option WorkerConfig :=
  lookupAssoc WORKERS_CONFIG n

/-- Python `str.strip()` with no argument: drop leading and trailing
whitespace. -/
def pyStrip (s : String) : String :=
  String.mk (((s.data.dropWhile Char.isWhitespace).reverse.dropWhile
      Char.isWhitespace).reverse)

/-- Python `str.split(",")`: split at every comma, keeping empty pieces;
on the empty string it returns `[""]`. -/
def splitCommaAux : List Char → List Char → List String
  | [], acc => [String.mk acc.reverse]
  | c :: rest, acc =>
      if c = ',' then String.mk acc.reverse :: splitCommaAux rest []
      else splitCommaAux rest (c :: acc)

def splitComma (s : String) : List String :=
  splitCommaAux s.data []

/-- Reading `SYNAPSE_WORKERS`: absent means no workers, `"*"` means every
registered worker type in registry order, anything else is split on commas. -/
def parseWorkerTypes : Option String → List String
  | none => []
  | some s => if s = "*" then registryNames else splitComma s

/-- The per-worker dict after the updates in the loop body: `worker_config.copy()`
plus `name`, `port` and `config_path`.  This is exactly the environment handed
to `convert` for the config file of the worker. -/
structure WorkerDescriptor where
  name : String
  app : String
  listener_resources : List String
  endpoint_patterns : List String
  shared_extra_conf : String
  port : Nat
  config_path : String
deriving Repr, DecidableEq

/-- The main loop of `generate_worker_files`, restricted to the data it
accumulates: each requested type name is stripped, looked up in
`WORKERS_CONFIG`, and, when known, turned into a descriptor carrying the next
free port; unknown names are skipped (only a log line, modelled by `logsOf`)
and do not advance the port counter, which the loop increments once per valid
worker. -/
def collectInstances (config_path : String) : List String → Nat → List WorkerDescriptor
  | [], _ => []
  | wt :: rest, worker_port =>
    match lookupWorker (pyStrip wt) with
    | none => collectInstances config_path rest worker_port
    | some wc =>
        { name := pyStrip wt,
          app := wc.app,
          listener_resources := wc.listener_resources,
          endpoint_patterns := wc.endpoint_patterns,
          shared_extra_conf := wc.shared_extra_conf,
          port := worker_port,
          config_path := config_path } :: collectInstances config_path rest (worker_port + 1)

/-- Worker ports start at 18009. -/
def basePort : Nat := 18009

/-- The valid worker instances produced by one run, in request order. -/
def validDescriptors (config_path : String) (env : Option String) : List WorkerDescriptor :=
  collectInstances config_path (parseWorkerTypes env) basePort

/-- The `log(...)` calls of the loop, in order: one line per unknown
(stripped) type name; they go to stdout and feed no artifact. -/
def logsOf (worker_types : List String) : List String :=
  worker_types.filterMap (fun wt =>
    match lookupWorker (pyStrip wt) with
    | some _ => none
    | none => some (pyStrip wt ++ " is a wrong worker type ! It will be ignored"))

/-- A `resources` element of a listener: `{"names": [...]}`. -/
structure ListenerResource where
  names : List String
deriving Repr, DecidableEq

/-- A listener entry of the homeserver config (the shape this script reads
and writes: port, bind_address, type, resources). -/
structure Listener where
  port : Nat
  bind_address : String
  type : String
  resources : List ListenerResource
deriving Repr, DecidableEq

/-- The replication listener the script always creates first. -/
def replicationListener : Listener :=
  { port := 9093,
    bind_address := "127.0.0.1",
    type := "http",
    resources := [{ names := ["replication"] }] }

/-- The new listener list: `[replication]`, then `+= original_listeners` only
when the `listeners` key of the base config is present and truthy (a missing key
and an empty list both contribute nothing). -/
def mkListeners (original_listeners : Option (List Listener)) : List Listener :=
  let listeners := [replicationListener]
  match original_listeners with
  | none => listeners
  | some l => if l ≠ [] then listeners ++ l else listeners

/-- Models `yaml.dump` (external library) as one fixed deterministic
serialization of the `listeners` mapping, block style with keys in the
alphabetical order PyYAML uses.  Every claim about the listener list is
stated on `mkListeners` itself; for the artifact-equality claims only
determinism of this function matters. -/
def yamlListener (l : Listener) : String :=
  "- bind_address: " ++ l.bind_address ++ "\n  port: " ++ toString l.port ++
    "\n  resources:\n" ++
    String.join (l.resources.map (fun r =>
      "  - names:\n" ++ String.join (r.names.map (fun n => "    - " ++ n ++ "\n")))) ++
    "  type: " ++ l.type ++ "\n"

def yamlDumpListeners (ls : List Listener) : String :=
  "listeners:\n" ++ String.join (ls.map yamlListener)

/-- The `homeserver_config` string: dumped listener list, then the redis
block, then (from the loop) for each valid worker its `shared_extra_conf`
fragment followed by a newline, in request order. -/
def homeserverConfigOf (orig : Option (List Listener)) (ds : List WorkerDescriptor) : String :=
  yamlDumpListeners (mkListeners orig) ++ "\nredis:\n    enabled: true\n" ++
    String.join (ds.map (fun d => d.shared_extra_conf ++ "\n"))

/-- One nginx `location` rule: a path pattern proxied to a local port. -/
structure NginxRule where
  pattern : String
  target_port : Nat
deriving Repr, DecidableEq

/-- The worker-specific rules accumulated in `nginx_config_body`: for each
valid worker in request order, one rule per endpoint pattern, in pattern
order, at the port of that worker. -/
def workerRules (ds : List WorkerDescriptor) : List NginxRule :=
  ds.flatMap (fun d => d.endpoint_patterns.map (fun p => { pattern := p, target_port := d.port }))

/-- The catch-all `location` block of `nginx_config_template_end`:
`location ~* ^(\/_matrix|\/_synapse)` proxied to the main process at 8008. -/
def catchAllRule : NginxRule :=
  { pattern := "^(\\/_matrix|\\/_synapse)", target_port := 8008 }

/-- The emitted routing table read structurally: the nginx file is written as
header, then the worker rule blocks, then the template end whose single
`location` block is the catch-all. -/
def nginxTable (ds : List WorkerDescriptor) : List NginxRule :=
  workerRules ds ++ [catchAllRule]

/-- The `location` block appended to `nginx_config_body` for one rule. -/
def renderNginxRule (r : NginxRule) : String :=
  "\n    location ~* " ++ r.pattern ++ " \x7b\n        proxy_pass http://localhost:" ++
    toString r.target_port ++
    ";\n        proxy_set_header X-Forwarded-For $remote_addr;\n    \x7d\n"

def nginxBodyOf (ds : List WorkerDescriptor) : String :=
  String.join ((workerRules ds).map renderNginxRule)

/-- `nginx_config_template_header` (a raw string in the source). -/
def nginxConfigHeader : String :=
  "\nserver \x7b\n    # List on an unoccupied port number\n    listen 8080;\n    listen [::]:8080;\n\n    server_name localhost;\n\n    # Nginx by default only allows file uploads up to 1M in size\n    # Increase client_max_body_size to match max_upload_size defined in homeserver.yaml\n    client_max_body_size 100M;\n    "

/-- `nginx_config_template_end`: comment plus the catch-all block, closing
the `server` block. -/
def nginxConfigTail : String :=
  "\n    # Send all other traffic to the main process\n    location ~* ^(\\/_matrix|\\/_synapse) \x7b\n        proxy_pass http://localhost:8008;\n        proxy_set_header X-Forwarded-For $remote_addr;\n    \x7d\n\x7d\n"

/-- The initial `supervisord_config` string (with `%s` replaced by
`config_path`); Python collapses the backslash-newline continuations inside
the `command=` lines, leaving five spaces between the joined pieces. -/
def supervisordHeader (config_path : String) : String :=
  "\n[supervisord]\nnodaemon=true\n\n[program:nginx]\ncommand=/usr/sbin/nginx -g \"daemon off;\"\npriority=500\nstdout_logfile=/dev/stdout\nstdout_logfile_maxbytes=0\nstderr_logfile=/dev/stderr\nstderr_logfile_maxbytes=0\nusername=www-data\nautorestart=true\n\n[program:synapse_main]\ncommand=/usr/local/bin/python -m synapse.app.homeserver     --config-path=\"" ++
    config_path ++
    "\"     --config-path=/conf/workers/shared.yaml\npriority=1\n# Log startup failures to supervisord\x27s stdout/err\n# Regular synapse logs will still go in the configured data directory\nstdout_logfile=/dev/stdout\nstdout_logfile_maxbytes=0\nstderr_logfile=/dev/stderr\nstderr_logfile_maxbytes=0\nautorestart=unexpected\nexitcodes=0\n\n"

/-- The block appended to `supervisord_config` for one valid worker. -/
def renderWorkerProgram (d : WorkerDescriptor) : String :=
  "\n[program:synapse_" ++ d.name ++ "]\ncommand=/usr/local/bin/python -m " ++ d.app ++
    "     --config-path=\"" ++ d.config_path ++
    "\"     --config-path=/conf/workers/shared.yaml     --config-path=/conf/workers/" ++
    d.name ++
    ".yaml\nautorestart=unexpected\npriority=500\nexitcodes=0\nstdout_logfile=/dev/stdout\nstdout_logfile_maxbytes=0\nstderr_logfile=/dev/stderr\nstderr_logfile_maxbytes=0"

def supervisordConfigOf (config_path : String) (ds : List WorkerDescriptor) : String :=
  supervisordHeader config_path ++ String.join (ds.map renderWorkerProgram)

/-- A supervisord `[program:x]` block read structurally; each field
transcribes the corresponding `key=value` line of the block emitted by the
source (`exitcodes` is `none` where the block has no such line, leaving
the supervisord default). -/
structure ProgramEntry where
  name : String
  command : String
  priority : Nat
  autorestart : String
  exitcodes : Option (List Nat)
  username : Option String
  stdout_logfile : String
  stderr_logfile : String
deriving Repr, DecidableEq

/-- The `[program:nginx]` block of `supervisord_config`. -/
def nginxProgram : ProgramEntry :=
  { name := "nginx",
    command := "/usr/sbin/nginx -g \"daemon off;\"",
    priority := 500,
    autorestart := "true",
    exitcodes := none,
    username := some "www-data",
    stdout_logfile := "/dev/stdout",
    stderr_logfile := "/dev/stderr" }

/-- The `[program:synapse_main]` block of `supervisord_config`. -/
def mainProgram (config_path : String) : ProgramEntry :=
  { name := "synapse_main",
    command := "/usr/local/bin/python -m synapse.app.homeserver     --config-path=\"" ++
      config_path ++ "\"     --config-path=/conf/workers/shared.yaml",
    priority := 1,
    autorestart := "unexpected",
    exitcodes := some [0],
    username := none,
    stdout_logfile := "/dev/stdout",
    stderr_logfile := "/dev/stderr" }

/-- The `[program:synapse_{name}]` block appended for one valid worker. -/
def workerProgram (d : WorkerDescriptor) : ProgramEntry :=
  { name := "synapse_" ++ d.name,
    command := "/usr/local/bin/python -m " ++ d.app ++ "     --config-path=\"" ++
      d.config_path ++
      "\"     --config-path=/conf/workers/shared.yaml     --config-path=/conf/workers/" ++
      d.name ++ ".yaml",
    priority := 500,
    autorestart := "unexpected",
    exitcodes := some [0],
    username := none,
    stdout_logfile := "/dev/stdout",
    stderr_logfile := "/dev/stderr" }

/-- The supervision spec of one run, as the ordered list of its program
blocks: nginx, then the main process, then one block per valid worker. -/
def programsOf (config_path : String) (ds : List WorkerDescriptor) : List ProgramEntry :=
  nginxProgram :: mainProgram config_path :: ds.map workerProgram

/-- Modelled from the spec: process supervision itself is an external
collaborator (supervisord), and only its restart semantics is described —
`autorestart=true` restarts on every exit, `autorestart=unexpected` restarts
exactly when the exit code is not among the expected `exitcodes` (default
`0`), so a clean expected exit never triggers a restart. -/
def restartsOn (e : ProgramEntry) (code : Nat) : Bool :=
  if e.autorestart = "true" then true
  else if e.autorestart = "unexpected" then !((e.exitcodes.getD [0]).contains code)
  else false

/-- The output files this run touches: the three append-mode files and the
per-worker config files written by `convert` (path to contents; `none` means
the file does not exist). -/
structure FileState where
  shared : String
  nginx : String
  supervisord : String
  workers : String → Option String

/-- In `convert`, `open(dst, "w")`: create or truncate-and-overwrite. -/
def writeWorkerFile (files : String → Option String) (dst contents : String) :
    String → Option String :=
  fun m => if m = dst then some contents else files m

/-- The per-worker `convert` calls of the loop, in order. -/
def applyWrites (files : String → Option String) :
    List (String × String) → (String → Option String)
  | [] => files
  | (dst, contents) :: rest => applyWrites (writeWorkerFile files dst contents) rest

/-- The file writes of `generate_worker_files` given the collected valid
descriptors: the worker config files are rendered from their descriptors by
the external jinja2 template (`render`, a collaborator out of scope) and
written with mode `"w"`; `shared.yaml` (with the extra leading newline), the
nginx config and the supervisord config are all opened with mode `"a"` and
appended to. -/
def emitFiles (render : WorkerDescriptor → String) (config_path : String)
    (orig : Option (List Listener)) (ds : List WorkerDescriptor) (fs : FileState) :
    FileState :=
  { shared := fs.shared ++ "\n" ++ homeserverConfigOf orig ds,
    nginx := fs.nginx ++ nginxConfigHeader ++ nginxBodyOf ds ++ nginxConfigTail,
    supervisord := fs.supervisord ++ supervisordConfigOf config_path ds,
    workers := applyWrites fs.workers
      (ds.map (fun d => ("/conf/workers/" ++ d.name ++ ".yaml", render d))) }

/-- One run of `generate_worker_files`: parse the request, collect the valid
instances with their ports, write the files. -/
def runGenerate (render : WorkerDescriptor → String) (config_path : String)
    (orig : Option (List Listener)) (env : Option String) (fs : FileState) : FileState :=
  emitFiles render config_path orig (validDescriptors config_path env) fs


set_option maxRecDepth 10000

/-- The default base-config path of `main`. -/
def cfg0 : String := "/data/homeserver.yaml"

/-- A trivial stand-in for the external jinja2 template renderer. -/
def renderZero : WorkerDescriptor → String := fun _ => ""

/-- An initially empty set of output files. -/
def fs0 : FileState := { shared := "", nginx := "", supervisord := "", workers := fun _ => none }

/-- The descriptor one run collects for a request naming only `user_dir`:
used as the concrete instance in witnesses. -/
def userDirDescriptor : WorkerDescriptor :=
  { name := "user_dir",
    app := "synapse.app.user_dir",
    listener_resources := DEFAULT_LISTENER_RESOURCES,
    endpoint_patterns := ["^/_matrix/client/(api/v1|r0|unstable)/user_directory/search$"],
    shared_extra_conf := "update_user_directory: false",
    port := basePort,
    config_path := cfg0 }

/-- The contents the last write to a given path leaves, if any: the
characterisation of `applyWrites` used below. -/
def lastWrite : List (String × String) → String → Option String
  | [], _ => none
  | (n, c) :: rest, m =>
      match lastWrite rest m with
      | some c2 => some c2
      | none => if m = n then some c else none

theorem applyWrites_eq (m : String) :
    ∀ (ws : List (String × String)) (f : String → Option String),
      applyWrites f ws m =
        match lastWrite ws m with
        | some c => some c
        | none => f m := by
  intro ws
  induction ws with
  | nil => intro f; rfl
  | cons nc rest ih =>
      intro f
      obtain ⟨n, c⟩ := nc
      simp only [applyWrites, lastWrite, ih]
      cases lastWrite rest m with
      | some c2 => rfl
      | none =>
          by_cases hm : m = n
          · simp [writeWorkerFile, hm]
          · simp [writeWorkerFile, hm]

theorem applyWrites_idem (ws : List (String × String)) (f : String → Option String) :
    applyWrites (applyWrites f ws) ws = applyWrites f ws := by
  funext m
  rw [applyWrites_eq m ws (applyWrites f ws), applyWrites_eq m ws f]
  cases h : lastWrite ws m with
  | some c => rfl
  | none => rfl

theorem collect_ports (cfg : String) :
    ∀ (wts : List String) (p : Nat),
      (collectInstances cfg wts p).map (fun d => d.port) =
        List.range' p (collectInstances cfg wts p).length := by
  intro wts
  induction wts with
  | nil => intro p; rfl
  | cons w rest ih =>
      intro p
      simp only [collectInstances]
      cases lookupWorker (pyStrip w) with
      | none => exact ih p
      | some wc =>
          simp only [List.map_cons, List.length_cons, List.range'_succ, ih]

theorem collect_skip (cfg u : String) (hu : lookupWorker (pyStrip u) = none) :
    ∀ (l1 l2 : List String) (p : Nat),
      collectInstances cfg (l1 ++ u :: l2) p = collectInstances cfg (l1 ++ l2) p := by
  intro l1
  induction l1 with
  | nil =>
      intro l2 p
      simp only [List.nil_append, collectInstances, hu]
  | cons w rest ih =>
      intro l2 p
      simp only [List.cons_append, collectInstances]
      cases lookupWorker (pyStrip w) <;> simp only [List.append_eq, ih]

theorem collect_port_ge (cfg : String) :
    ∀ (wts : List String) (p : Nat) (d : WorkerDescriptor),
      d ∈ collectInstances cfg wts p → p ≤ d.port := by
  intro wts
  induction wts with
  | nil => intro p d h; cases h
  | cons w rest ih =>
      intro p d h
      simp only [collectInstances] at h
      cases hw : lookupWorker (pyStrip w) with
      | none => simp only [hw] at h; exact ih p d h
      | some wc =>
          simp only [hw] at h
          rcases List.mem_cons.mp h with h1 | h2
          · subst h1; exact Nat.le_refl p
          · exact Nat.le_of_succ_le (ih (p + 1) d h2)

theorem lookupAssoc_mem :
    ∀ (l : List (String × WorkerConfig)) (n : String) (wc : WorkerConfig),
      lookupAssoc l n = some wc → n ∈ l.map Prod.fst := by
  intro l
  induction l with
  | nil => intro n wc h; cases h
  | cons kv rest ih =>
      intro n wc h
      obtain ⟨k, v⟩ := kv
      simp only [lookupAssoc] at h
      by_cases hk : n = k
      · simp [hk]
      · rw [if_neg hk] at h
        exact List.mem_cons_of_mem _ (ih n wc h)

theorem collect_name_mem (cfg : String) :
    ∀ (wts : List String) (p : Nat) (d : WorkerDescriptor),
      d ∈ collectInstances cfg wts p → d.name ∈ registryNames := by
  intro wts
  induction wts with
  | nil => intro p d h; cases h
  | cons w rest ih =>
      intro p d h
      simp only [collectInstances] at h
      cases hw : lookupWorker (pyStrip w) with
      | none => simp only [hw] at h; exact ih p d h
      | some wc =>
          simp only [hw] at h
          rcases List.mem_cons.mp h with h1 | h2
          · subst h1; exact lookupAssoc_mem WORKERS_CONFIG (pyStrip w) wc hw
          · exact ih (p + 1) d h2

theorem workerRules_port_ge (cfg : String) (wts : List String) (p : Nat) (r : NginxRule)
    (hr : r ∈ workerRules (collectInstances cfg wts p)) : p ≤ r.target_port := by
  simp only [workerRules, List.mem_flatMap] at hr
  obtain ⟨d, hd, hrd⟩ := hr
  simp only [List.mem_map] at hrd
  obtain ⟨pat, hpat, rfl⟩ := hrd
  exact collect_port_ge cfg wts p d hd

theorem string_append_left_cancel {a b c : String} (h : a ++ b = a ++ c) : b = c := by
  have hd : (a ++ b).data = (a ++ c).data := congrArg String.data h
  simp only [String.data_append] at hd
  exact String.ext (List.append_cancel_left hd)

/-- C1: for every requested worker-type list, the ports of the valid worker
instances form the contiguous strictly increasing sequence 18009, 18010, …,
one port per instance in request order — no reuse, no gaps, no collision —
and an unknown type name is skipped before allocation, consuming no port. -/
theorem ports_contiguous_from_base (config_path : String) (env : Option String) :
    (validDescriptors config_path env).map (fun d => d.port) =
      List.range' basePort (validDescriptors config_path env).length
    ∧ ∀ (u : String) (l1 l2 : List String) (p : Nat),
        lookupWorker (pyStrip u) = none →
        collectInstances config_path (l1 ++ u :: l2) p =
          collectInstances config_path (l1 ++ l2) p :=
  ⟨collect_ports config_path (parseWorkerTypes env) basePort,
   fun u l1 l2 p hu => collect_skip config_path u hu l1 l2 p⟩

theorem ports_contiguous_from_base_witness :
    (validDescriptors cfg0 (some "federation_reader,user_dir")).map (fun d => d.port) =
      List.range' basePort (validDescriptors cfg0 (some "federation_reader,user_dir")).length
    ∧ collectInstances cfg0 (["federation_reader"] ++ "bad_worker_type" :: ["user_dir"]) basePort =
        collectInstances cfg0 (["federation_reader"] ++ ["user_dir"]) basePort :=
  ⟨(ports_contiguous_from_base cfg0 (some "federation_reader,user_dir")).1,
   (ports_contiguous_from_base cfg0 (some "federation_reader,user_dir")).2
     "bad_worker_type" ["federation_reader"] ["user_dir"] basePort (by decide)⟩

/-- C2: in the emitted routing table, for every request, every
worker-specific location rule appears before the single catch-all rule,
which matches the reserved prefixes and routes to the main process at 8008;
under first-match-wins evaluation worker rules therefore take precedence. -/
theorem worker_rules_precede_catch_all (config_path : String) (env : Option String) :
    nginxTable (validDescriptors config_path env) =
      workerRules (validDescriptors config_path env) ++ [catchAllRule]
    ∧ (nginxTable (validDescriptors config_path env)).count catchAllRule = 1
    ∧ catchAllRule ∉ workerRules (validDescriptors config_path env)
    ∧ catchAllRule.pattern = "^(\\/_matrix|\\/_synapse)"
    ∧ catchAllRule.target_port = 8008 := by
  have hni : catchAllRule ∉ workerRules (validDescriptors config_path env) := by
    intro hmem
    have := workerRules_port_ge config_path (parseWorkerTypes env) basePort catchAllRule hmem
    simp [catchAllRule, basePort] at this
  refine ⟨rfl, ?_, hni, rfl, rfl⟩
  simp [nginxTable, List.count_append, List.count_eq_zero.mpr hni]

/-- C3: the shared patch listener list is the replication listener followed
by the pre-existing listeners of the base config in their original order
(empty when absent); the replication listener is bound to loopback on fixed
port 9093 — distinct from every worker port — with type http and a
replication resource. -/
theorem replication_listener_prepended
    (orig : Option (List Listener)) (config_path : String) (env : Option String) :
    mkListeners orig = replicationListener :: orig.getD []
    ∧ replicationListener.port = 9093
    ∧ replicationListener.bind_address = "127.0.0.1"
    ∧ replicationListener.type = "http"
    ∧ replicationListener.resources = [{ names := ["replication"] }]
    ∧ replicationListener.port ∉ (validDescriptors config_path env).map (fun d => d.port) := by
  refine ⟨?_, rfl, rfl, rfl, rfl, ?_⟩
  · cases orig with
    | none => rfl
    | some l => cases l with
      | nil => rfl
      | cons a l => simp [mkListeners]
  · intro hmem
    simp only [List.mem_map] at hmem
    obtain ⟨d, hd, hp⟩ := hmem
    have := collect_port_ge config_path (parseWorkerTypes env) basePort d hd
    rw [hp] at this
    simp [basePort, replicationListener] at this

/-- C4 as stated is false: in the emitted supervision spec the proxy block
has priority 500 while the main-process block has priority 1, so with
lower-value-runs-first semantics the proxy does not have the highest start
priority (it does not start first). -/
theorem proxy_priority_counterexample :
    ¬ (nginxProgram.priority < (mainProgram cfg0).priority) := by decide

/-- C4 amended: the main-process entry has priority 1 and both the proxy
entry and every worker entry have priority 500; with lower-value-runs-first
semantics the main process starts first and the proxy and workers share the
same later start rank. -/
theorem main_process_starts_first (config_path : String) (env : Option String) :
    (mainProgram config_path).priority = 1
    ∧ nginxProgram.priority = 500
    ∧ (mainProgram config_path).priority < nginxProgram.priority
    ∧ ∀ e ∈ (validDescriptors config_path env).map workerProgram,
        e.priority = 500 ∧ (mainProgram config_path).priority < e.priority := by
  refine ⟨rfl, rfl, by show (1:Nat) < 500; norm_num, ?_⟩
  intro e he
  simp only [List.mem_map] at he
  obtain ⟨d, _, rfl⟩ := he
  exact ⟨rfl, by show (1:Nat) < 500; norm_num⟩

theorem main_process_starts_first_witness :
    (workerProgram userDirDescriptor).priority = 500
    ∧ (mainProgram cfg0).priority < (workerProgram userDirDescriptor).priority :=
  (main_process_starts_first cfg0 (some "user_dir")).2.2.2
    (workerProgram userDirDescriptor) (by decide)

/-- C5 as stated is false: the nginx routing config is opened in append
mode, so running the synthesis twice with the same input leaves a routing
table that is not byte-identical to the one a single run produces. -/
theorem rerun_not_byte_identical :
    (runGenerate renderZero cfg0 none (some "user_dir")
        (runGenerate renderZero cfg0 none (some "user_dir") fs0)).nginx ≠
      (runGenerate renderZero cfg0 none (some "user_dir") fs0).nginx := by decide

/-- C5 amended: only the per-worker descriptor files are idempotently
regenerated (they are written fresh with mode w, so a re-run leaves them
unchanged); the shared patch is append-only as claimed, but the routing
table and the supervision spec are also opened in append mode and merely
accumulate, each run appending its full output after any prior content. -/
theorem rerun_descriptors_idempotent_others_append
    (render : WorkerDescriptor → String) (config_path : String)
    (orig : Option (List Listener)) (env : Option String) (fs : FileState) :
    (runGenerate render config_path orig env
        (runGenerate render config_path orig env fs)).workers
      = (runGenerate render config_path orig env fs).workers
    ∧ (runGenerate render config_path orig env fs).shared
        = fs.shared ++ ("\n" ++ homeserverConfigOf orig (validDescriptors config_path env))
    ∧ (runGenerate render config_path orig env fs).nginx
        = fs.nginx ++ (nginxConfigHeader ++ nginxBodyOf (validDescriptors config_path env)
            ++ nginxConfigTail)
    ∧ (runGenerate render config_path orig env fs).supervisord
        = fs.supervisord ++ supervisordConfigOf config_path (validDescriptors config_path env) := by
  refine ⟨applyWrites_idem _ _, ?_, ?_, rfl⟩
  · simp [runGenerate, emitFiles, String.append_assoc]
  · simp [runGenerate, emitFiles, String.append_assoc]

/-- C6: an unregistered worker-type name in the request is logged and
contributes no descriptor — hence no supervision entry, no routing rule and
no shared-config fragment — and every other name is processed exactly as it
would be without it: the collected instances, and therefore every emitted
artifact, coincide with those of the request with the unknown name removed. -/
theorem unknown_worker_isolated (config_path u : String) (l1 l2 : List String)
    (hu : lookupWorker (pyStrip u) = none) :
    (∀ p, collectInstances config_path (l1 ++ u :: l2) p =
        collectInstances config_path (l1 ++ l2) p)
    ∧ (pyStrip u ++ " is a wrong worker type ! It will be ignored") ∈ logsOf (l1 ++ u :: l2)
    ∧ programsOf config_path (collectInstances config_path (l1 ++ u :: l2) basePort)
        = programsOf config_path (collectInstances config_path (l1 ++ l2) basePort)
    ∧ ∀ (render : WorkerDescriptor → String) (orig : Option (List Listener)) (fs : FileState),
        emitFiles render config_path orig
            (collectInstances config_path (l1 ++ u :: l2) basePort) fs
          = emitFiles render config_path orig
              (collectInstances config_path (l1 ++ l2) basePort) fs := by
  refine ⟨collect_skip config_path u hu l1 l2, ?_, ?_, ?_⟩
  · simp only [logsOf, List.filterMap_append]
    apply List.mem_append_right
    simp [List.filterMap_cons, hu]
  · rw [collect_skip config_path u hu l1 l2 basePort]
  · intro render orig fs
    rw [collect_skip config_path u hu l1 l2 basePort]

theorem unknown_worker_isolated_witness :
    collectInstances cfg0 ["pusher", "bad_worker_type", "user_dir"] basePort
      = collectInstances cfg0 ["pusher", "user_dir"] basePort
    ∧ (pyStrip "bad_worker_type" ++ " is a wrong worker type ! It will be ignored")
        ∈ logsOf ["pusher", "bad_worker_type", "user_dir"]
    ∧ emitFiles renderZero cfg0 none
          (collectInstances cfg0 ["pusher", "bad_worker_type", "user_dir"] basePort) fs0
        = emitFiles renderZero cfg0 none
            (collectInstances cfg0 ["pusher", "user_dir"] basePort) fs0 :=
  ⟨(unknown_worker_isolated cfg0 "bad_worker_type" ["pusher"] ["user_dir"] (by decide)).1 basePort,
   (unknown_worker_isolated cfg0 "bad_worker_type" ["pusher"] ["user_dir"] (by decide)).2.1,
   (unknown_worker_isolated cfg0 "bad_worker_type" ["pusher"] ["user_dir"] (by decide)).2.2.2
     renderZero none fs0⟩

/-- C7: requesting the wildcard produces exactly the same artifacts as a
request explicitly listing every registered worker-type name in registry
iteration order. -/
theorem wildcard_equals_full_enumeration
    (render : WorkerDescriptor → String) (config_path : String)
    (orig : Option (List Listener)) (fs : FileState) :
    registryNames =
      [ "pusher", "user_dir", "media_repository", "appservice", "federation_sender",
        "synchrotron", "federation_reader", "federation_inbound" ]
    ∧ parseWorkerTypes (some "*") = registryNames
    ∧ runGenerate render config_path orig (some "*") fs
        = runGenerate render config_path orig
            (some "pusher,user_dir,media_repository,appservice,federation_sender,synchrotron,federation_reader,federation_inbound")
            fs :=
  ⟨rfl, rfl, rfl⟩

/-- C8: the proxy entry is set to restart always, while the main-process
entry and every worker entry restart only on unexpected exit, declaring exit
code 0 expected, so a clean exit never triggers a restart. -/
theorem autorestart_policies (config_path : String) (env : Option String) :
    nginxProgram.autorestart = "true"
    ∧ (∀ code : Nat, restartsOn nginxProgram code = true)
    ∧ (mainProgram config_path).autorestart = "unexpected"
    ∧ (mainProgram config_path).exitcodes = some [0]
    ∧ restartsOn (mainProgram config_path) 0 = false
    ∧ ∀ e ∈ (validDescriptors config_path env).map workerProgram,
        e.autorestart = "unexpected" ∧ e.exitcodes = some [0] ∧ restartsOn e 0 = false := by
  refine ⟨rfl, fun code => rfl, rfl, rfl, rfl, ?_⟩
  intro e he
  simp only [List.mem_map] at he
  obtain ⟨d, _, rfl⟩ := he
  exact ⟨rfl, rfl, rfl⟩

theorem autorestart_policies_witness :
    (workerProgram userDirDescriptor).autorestart = "unexpected"
    ∧ (workerProgram userDirDescriptor).exitcodes = some [0]
    ∧ restartsOn (workerProgram userDirDescriptor) 0 = false :=
  (autorestart_policies cfg0 (some "user_dir")).2.2.2.2.2
    (workerProgram userDirDescriptor) (by decide)

/-- C10: a present-but-empty request variable does not take the absent-case
no-workers branch: it parses to a single empty-string name, which is logged
as a wrong worker type and skipped, so no instance is created and the
emitted artifacts are identical to those of an absent request. -/
theorem empty_request_same_artifacts
    (render : WorkerDescriptor → String) (config_path : String)
    (orig : Option (List Listener)) (fs : FileState) :
    parseWorkerTypes (some "") = [""]
    ∧ parseWorkerTypes none = []
    ∧ parseWorkerTypes (some "") ≠ parseWorkerTypes none
    ∧ validDescriptors config_path (some "") = []
    ∧ logsOf (parseWorkerTypes (some "")) = [" is a wrong worker type ! It will be ignored"]
    ∧ runGenerate render config_path orig (some "") fs
        = runGenerate render config_path orig none fs :=
  ⟨rfl, rfl, by decide, rfl, rfl, rfl⟩

theorem synapse_prefix_ne_nginx (s : String) : "synapse_" ++ s ≠ "nginx" := by
  intro h
  have h2 : ("synapse_" ++ s).length = ("nginx" : String).length := congrArg String.length h
  rw [String.length_append] at h2
  have h3 : 8 + s.length = 5 := h2
  omega

theorem registry_name_not_main : "main" ∉ registryNames := by decide

theorem synapse_name_inj : Function.Injective (fun s : String => "synapse_" ++ s) :=
  fun _ _ h => string_append_left_cancel h

/-- C9: the emitted supervision spec has exactly one reverse-proxy entry,
exactly one main-process entry, and exactly one entry per valid worker
instance; when no worker type is requested twice (multiple instances of one
type being a declared non-goal) all entry names are distinct. -/
theorem supervision_entries_unique (config_path : String) (env : Option String) :
    programsOf config_path (validDescriptors config_path env)
      = nginxProgram :: mainProgram config_path ::
          (validDescriptors config_path env).map workerProgram
    ∧ (programsOf config_path (validDescriptors config_path env)).countP
        (fun e => e.name == "nginx") = 1
    ∧ (programsOf config_path (validDescriptors config_path env)).countP
        (fun e => e.name == "synapse_main") = 1
    ∧ (programsOf config_path (validDescriptors config_path env)).length
        = 2 + (validDescriptors config_path env).length
    ∧ (((validDescriptors config_path env).map (fun d => d.name)).Nodup →
        ((programsOf config_path (validDescriptors config_path env)).map
          (fun e => e.name)).Nodup) := by
  have hzero_nginx : ((validDescriptors config_path env).map workerProgram).countP
      (fun e => e.name == "nginx") = 0 := by
    apply List.countP_eq_zero.mpr
    intro e he
    simp only [List.mem_map] at he
    obtain ⟨d, _, rfl⟩ := he
    simpa [workerProgram] using synapse_prefix_ne_nginx d.name
  have hzero_main : ((validDescriptors config_path env).map workerProgram).countP
      (fun e => e.name == "synapse_main") = 0 := by
    apply List.countP_eq_zero.mpr
    intro e he
    simp only [List.mem_map] at he
    obtain ⟨d, hd, rfl⟩ := he
    simp only [workerProgram, beq_iff_eq]
    intro h
    have hmain : d.name = "main" :=
      string_append_left_cancel (a := "synapse_") (h.trans rfl)
    have hreg := collect_name_mem config_path (parseWorkerTypes env) basePort d hd
    rw [hmain] at hreg
    exact registry_name_not_main hreg
  refine ⟨rfl, ?_, ?_, ?_, ?_⟩
  · simp [programsOf, List.countP_cons, hzero_nginx, nginxProgram, mainProgram]
  · simp [programsOf, List.countP_cons, hzero_main, nginxProgram, mainProgram]
  · simp [programsOf]; omega
  · intro hnod
    have hnames : (programsOf config_path (validDescriptors config_path env)).map
        (fun e => e.name)
        = "nginx" :: "synapse_main" ::
            (validDescriptors config_path env).map (fun d => "synapse_" ++ d.name) := by
      simp [programsOf, nginxProgram, mainProgram, workerProgram, List.map_map, Function.comp]
    rw [hnames]
    refine List.nodup_cons.mpr ⟨?_, List.nodup_cons.mpr ⟨?_, ?_⟩⟩
    · simp only [List.mem_cons, List.mem_map]
      rintro (h | ⟨d, _, h⟩)
      · exact absurd h (by decide)
      · exact synapse_prefix_ne_nginx d.name h
    · simp only [List.mem_map]
      rintro ⟨d, hd, h⟩
      have hmain : d.name = "main" := string_append_left_cancel (a := "synapse_") h
      have hreg := collect_name_mem config_path (parseWorkerTypes env) basePort d hd
      rw [hmain] at hreg
      exact registry_name_not_main hreg
    · have hmm : (validDescriptors config_path env).map (fun d => "synapse_" ++ d.name)
          = ((validDescriptors config_path env).map (fun d => d.name)).map
              (fun s => "synapse_" ++ s) := (List.map_map _ _ _).symm
      rw [hmm]
      exact hnod.map synapse_name_inj

theorem supervision_entries_unique_witness :
    ((programsOf cfg0 (validDescriptors cfg0 (some "federation_reader,user_dir"))).map
      (fun e => e.name)).Nodup :=
  (supervision_entries_unique cfg0 (some "federation_reader,user_dir")).2.2.2.2 (by decide)

end Synapse
